import Mathlib

/-! Verification of the ipython-vsql cell magic (`src/vsql/vmagic.py`) against its
natural-language specification.

The development shallowly embeds the module's two pieces of logic:

* `get_connection_dict` (vmagic.py lines 26-46): builds the driver connection
  parameters from the process environment, asserting the four mandatory
  variables.

* `VerticaSqlMagic.execute` (vmagic.py lines 85-164): the per-invocation
  controller.  External collaborators (the `vsql.parse` parser, whose source is
  not part of this file, the `vertica_python` driver, `pandas.read_sql`, and
  `sql.connection.Connection.tell_format`) are passed in as oracles.

A central fact of the source, reflected in the embedding: the first
`try/except` block of `execute` (lines 116-126) exits the function on every
path.  The `try` branch ends in `return result` (line 121); the `except
Exception` branch (lines 123-126) prints `e` and then evaluates
`sql.connection.Connection.tell_format()` (line 125) — but the name `sql` is
not bound at module level (the module imports `vsql.connection`, `vsql.parse`,
`vsql.run`, never `sql`), so that statement raises `NameError` and the branch
exits by raising before reaching its `return None`.  Consequently the legacy
block at lines 128-164 (the `sql.run.run` call, the `column_local_vars`
binding, the `result_var` binding and the `short_errors` handling) is
unreachable.
-/

/-- Python scalar values occurring in the connection dictionary. -/
inductive PyScalar where
  | s (v : String)
  | i (v : Int)
  | b (v : Bool)
  deriving DecidableEq, Repr

/-- Python values flowing through the reachable part of `execute`:
a pandas DataFrame (opaque identity), a generic row/column result set
(legacy path only), a string, or `None`. -/
inductive PyVal where
  | dataframe (id : Nat)
  | rowset (id : Nat)
  | str (v : String)
  | pyNone
  deriving DecidableEq, Repr

/-- Python exceptions relevant to `vmagic.py`.  `programmingError` and
`operationalError` are the two classes named in the legacy handler (line 159);
`assertionError` is raised by the `assert` statements of
`get_connection_dict`; `nameError` by resolution of an unbound name;
`otherError` stands for any other exception from a collaborator. -/
inductive PyExn where
  | programmingError (msg : String)
  | operationalError (msg : String)
  | assertionError (msg : String)
  | nameError (nm : String)
  | otherError (msg : String)
  deriving DecidableEq, Repr

/-- The text `print(e)` emits for an exception `e`, Python `str(e)`. -/
def PyExn.message : PyExn → String
  | .programmingError m => m
  | .operationalError m => m
  | .assertionError m => m
  | .nameError nm => "name " ++ nm ++ " is not defined"
  | .otherError m => m

/-- The process environment: a partial map from variable names to values,
as read through `os.environ`. -/
def Env : Type := String → Option String

/-- The dictionary literal returned by `get_connection_dict`
(vmagic.py lines 32-46), field for field. -/
structure ConnDict where
  host : PyScalar
  port : PyScalar
  user : PyScalar
  password : PyScalar
  database : PyScalar
  session_label : PyScalar
  unicode_error : PyScalar
  ssl : PyScalar
  use_prepared_statements : PyScalar
  connection_timeout : PyScalar
  deriving DecidableEq, Repr

/-- Shallow embedding of `get_connection_dict` (vmagic.py lines 26-46).
The four `assert` statements run in source order; a failing one raises
`AssertionError` carrying the source's message verbatim.  `os.environ.get`
with a default yields the environment string when the variable is set and the
(differently typed) default value otherwise, exactly as in the source:
`port` defaults to the integer `5433`, `session_label` to the string
`"vsql magic session"`, `connection_timeout` to the integer `5`. -/
def get_connection_dict (env : Env) : Except PyExn ConnDict :=
  if (env "VERTICA_HOST").isNone then
    .error (.assertionError "Ensure that `vertica.host` is set in your environment.")
  else if (env "VERTICA_USER").isNone then
    .error (.assertionError "Ensure that `vertica.user` is set in your environment.")
  else if (env "VERTICA_PASSWORD").isNone then
    .error (.assertionError "Ensure that `vertica.password` is set in your environment.")
  else if (env "VERTICA_DB").isNone then
    .error (.assertionError "Ensure that `vertica.db` is set in your environment.")
  else
    .ok
      { host := .s ((env "VERTICA_HOST").getD "")
        port := match env "VERTICA_PORT" with
          | some p => .s p
          | none => .i 5433
        user := .s ((env "VERTICA_USER").getD "")
        password := .s ((env "VERTICA_PASSWORD").getD "")
        database := .s ((env "VERTICA_DB").getD "")
        session_label := match env "VERTICA_LABEL" with
          | some l => .s l
          | none => .s "vsql magic session"
        unicode_error := .s "strict"
        ssl := .b false
        use_prepared_statements := .b false
        connection_timeout := match env "VERTICA_TIMEOUT" with
          | some t => .s t
          | none => .i 5 }

/-- The configurable traitlets of `VerticaSqlMagic` (vmagic.py lines 55-73),
with their declared defaults. -/
structure Config where
  autolimit : Int := 0
  style : String := "DEFAULT"
  short_errors : Bool := true
  displaylimit : Option Int := none
  autopandas : Bool := false
  column_local_vars : Bool := false
  feedback : Bool := true
  dsn_filename : String := "odbc.ini"
  autocommit : Bool := true

/-- The dictionary produced by `vsql.parse.parse` as consumed by `execute`:
`parsed["sql"]` (line 119 / 129) and `parsed["flags"].get("result_var")`
(lines 150-151).  The parser source is not part of `vmagic.py`; `execute`
is parameterised over it. -/
structure Parsed where
  sql : String
  result_var : Option String

/-- Oracles for the two external database collaborators used on the reachable
path of `execute`: the outcome of `vertica_python.connect(**d)` and the
outcome of `pd.read_sql(sql, conn)`.  When `read_sql` succeeds it yields a
pandas DataFrame — modelled by the opaque identity wrapped by
`PyVal.dataframe` at the return site. -/
structure Driver where
  connect : ConnDict → Except PyExn Unit
  read_sql : String → Except PyExn Nat

/-- Observable state threaded through one call of `execute`: the shared
notebook namespace `self.shell.user_ns`, the lines printed so far, and
counters of connections opened and closed. -/
structure ExecState where
  shellUserNs : List (String × PyVal)
  printed : List String
  connOpened : Nat
  connClosed : Nat
  deriving DecidableEq, Repr

/-- How one call of `execute` ends: a Python `return` with a value
(`None` is `PyVal.pyNone`), or an uncaught exception. -/
inductive ExecOutcome where
  | returned (v : PyVal)
  | raised (e : PyExn)
  deriving DecidableEq, Repr

/-- The names bound at module level of `vmagic.py` when `execute` runs:
its imports bind `re`, the IPython and traitlets names, `DataFrame`,
`Series`, the two sqlalchemy exception classes, the package name `vsql`
(via `import vsql.connection` etc.), `vertica_python`, `os` and `pd`; the
module body then defines `get_connection_dict`, `VerticaSqlMagic` and
`load_ipython_extension`.  The bare name `sql` is never bound. -/
def moduleGlobals : List String :=
  ["re", "Magics", "magics_class", "cell_magic", "line_magic",
   "needs_local_scope", "display_javascript", "Configurable", "Bool", "Int",
   "Unicode", "DataFrame", "Series", "ProgrammingError", "OperationalError",
   "vsql", "vertica_python", "os", "pd", "get_connection_dict",
   "VerticaSqlMagic", "load_ipython_extension"]

/-- Python `dict.copy()` followed by `dict.update(updates)`: entries of `updates`
override, the remaining entries of `ns` persist; the original `ns` (the shell
namespace) is untouched, as `execute` works on the copy (line 111). -/
def nsUpdate (ns updates : List (String × PyVal)) : List (String × PyVal) :=
  updates ++ ns.filter (fun p => (updates.lookup p.fst).isNone)

/-- The `except Exception as e` handler of `execute` (vmagic.py lines
123-126).  Statement 1, `print(e)`, appends `str(e)` to the output.
Statement 2, `print(sql.connection.Connection.tell_format())`, first resolves
the name `sql`; were it bound, the handler would print the format hint
(the oracle `tellFormat`) and reach `return None`; since `sql` is not in
`moduleGlobals`, the statement raises `NameError` and the handler exits by
raising, never reaching line 126. -/
def handlerBlock (tellFormat : String) (e : PyExn) (st : ExecState) :
    ExecOutcome × ExecState :=
  let st1 : ExecState := { st with printed := st.printed ++ [e.message] }
  if moduleGlobals.contains "sql" then
    (.returned .pyNone, { st1 with printed := st1.printed ++ [tellFormat] })
  else
    (.raised (.nameError "sql"), st1)

/-- Shallow embedding of `VerticaSqlMagic.execute` (vmagic.py lines 85-164).

Line 111-112: `user_ns = self.shell.user_ns.copy(); user_ns.update(local_ns)`
— a local copy; the shell namespace itself is never written on any reachable
path (the copy is consumed only by the unreachable legacy block, line 129).

Line 114-115: `parsed = vsql.parse.parse(line + "\n" + cell, self)`;
`flags = parsed["flags"]` — the parser is the oracle `parseFn`.

Lines 116-126, the first `try/except`:
* `get_connection_dict()` runs inside the `try` (line 118); an
  `AssertionError` from it reaches the handler with no connection attempted.
* `vertica_python.connect(**d)` may raise (handler, nothing opened) or yield
  a connection entering the `with` block (one connection opened).
* `pd.read_sql(parsed["sql"], conn)` either yields a DataFrame — the `with`
  block closes the connection on exit and line 121 returns the DataFrame —
  or raises, in which case the `with` exit still closes the connection and
  the handler runs.
* the handler is `handlerBlock`: print once, then raise `NameError "sql"`.

Both branches of this `try/except` therefore exit the function, so the legacy
block at lines 128-164 never executes and is not part of the reachable
semantics; none of the configuration flags in `cfg` is consulted before the
function exits. -/
def execute (cfg : Config) (env : Env) (drv : Driver)
    (parseFn : String → Parsed) (tellFormat : String)
    (line cell : String) (local_ns : List (String × PyVal))
    (st : ExecState) : ExecOutcome × ExecState :=
  let _user_ns := nsUpdate st.shellUserNs local_ns
  let parsed := parseFn (line ++ "\n" ++ cell)
  let _flags := parsed.result_var
  let _cfg := cfg
  match get_connection_dict env with
  | .error e => handlerBlock tellFormat e st
  | .ok d =>
    match drv.connect d with
    | .error e => handlerBlock tellFormat e st
    | .ok _ =>
      let stOpen : ExecState := { st with connOpened := st.connOpened + 1 }
      match drv.read_sql parsed.sql with
      | .ok df =>
        let stDone : ExecState := { stOpen with connClosed := stOpen.connClosed + 1 }
        (.returned (.dataframe df), stDone)
      | .error e =>
        let stDone : ExecState := { stOpen with connClosed := stOpen.connClosed + 1 }
        handlerBlock tellFormat e stDone

/-! Concrete fixtures used by evaluation theorems and witnesses. -/

/-- An initial state: empty namespace, nothing printed, no connections. -/
def st0 : ExecState :=
  { shellUserNs := [], printed := [], connOpened := 0, connClosed := 0 }

/-- An environment with the four mandatory variables set and the three
optional ones unset. -/
def envFull : Env := fun v =>
  if v = "VERTICA_HOST" then some "dbhost"
  else if v = "VERTICA_USER" then some "u1"
  else if v = "VERTICA_PASSWORD" then some "pw"
  else if v = "VERTICA_DB" then some "db1"
  else none

/-- An environment with no variable set at all. -/
def envEmpty : Env := fun _ => none

/-- The connection dictionary `get_connection_dict` builds from `envFull`:
all defaults in force. -/
def connDictFull : ConnDict :=
  { host := .s "dbhost", port := .i 5433, user := .s "u1", password := .s "pw",
    database := .s "db1", session_label := .s "vsql magic session",
    unicode_error := .s "strict", ssl := .b false,
    use_prepared_statements := .b false, connection_timeout := .i 5 }

/-- A driver whose connect succeeds and whose read_sql yields the DataFrame
with identity 0. -/
def okDriver : Driver :=
  { connect := fun _ => .ok (), read_sql := fun _ => .ok 0 }

/-- A driver whose connect succeeds and whose read_sql raises a
ProgrammingError, as a SQL syntax error does. -/
def progErrDriver : Driver :=
  { connect := fun _ => .ok (),
    read_sql := fun _ => .error (.programmingError "Syntax error at or near SELCT") }

/-- A parser oracle recognising no flags: the whole text is the SQL. -/
def parsePlain : String → Parsed := fun s => { sql := s, result_var := none }

/-- A parser oracle reporting the flag `result_var = "r"`. -/
def parseWithVar : String → Parsed := fun s => { sql := s, result_var := some "r" }

/-! Helper lemmas shared by the claim theorems. -/

/-- The name `sql` is not among the module-level bindings of `vmagic.py`. -/
theorem sql_unbound : moduleGlobals.contains "sql" = false := by decide

/-- The reachable behaviour of the `except Exception` handler: print the
message once, then raise `NameError` for the unbound name `sql`. -/
theorem handlerBlock_eq (tellFormat : String) (e : PyExn) (st : ExecState) :
    handlerBlock tellFormat e st
      = (.raised (.nameError "sql"),
         { st with printed := st.printed ++ [e.message] }) := by
  have h : "sql" ∉ moduleGlobals := by decide
  simp [handlerBlock, h]

/-- Every run of `execute` ends in one of exactly two shapes: the query
succeeded and the DataFrame is returned with one connection opened and closed
and nothing printed, or some exception was caught, its message was printed
once and `NameError` is raised, with equally many connections opened and
closed; the shell namespace is untouched either way. -/
theorem execute_shape (cfg : Config) (env : Env) (drv : Driver)
    (parseFn : String → Parsed) (tellFormat : String) (line cell : String)
    (local_ns : List (String × PyVal)) (st : ExecState) :
    (∃ df, execute cfg env drv parseFn tellFormat line cell local_ns st
        = (.returned (.dataframe df),
           { st with connOpened := st.connOpened + 1,
                     connClosed := st.connClosed + 1 }))
    ∨ (∃ e k, execute cfg env drv parseFn tellFormat line cell local_ns st
        = (.raised (.nameError "sql"),
           { st with printed := st.printed ++ [PyExn.message e],
                     connOpened := st.connOpened + k,
                     connClosed := st.connClosed + k })) := by
  rcases hgc : get_connection_dict env with e | d
  · exact Or.inr ⟨e, 0, by simp [execute, hgc, handlerBlock_eq]⟩
  · rcases hcn : drv.connect d with e | u
    · exact Or.inr ⟨e, 0, by simp [execute, hgc, hcn, handlerBlock_eq]⟩
    · rcases hrs : drv.read_sql (parseFn (line ++ "\n" ++ cell)).sql with e | df
      · exact Or.inr ⟨e, 1, by simp [execute, hgc, hcn, hrs, handlerBlock_eq]⟩
      · exact Or.inl ⟨df, by simp [execute, hgc, hcn, hrs]⟩

/-! Claim theorems. -/

/-- C1 (code-bug evidence): when running the SQL raises a ProgrammingError,
the reachable catch-all handler prints the message once and then raises
NameError for the unbound name `sql` — it neither returns nothing (claimed
for short_errors enabled) nor re-raises the database error (claimed for
short_errors disabled); the outcome is identical for both settings because
short_errors is consulted only in the unreachable legacy block. -/
theorem C1_database_error_prints_then_raises_NameError :
    (execute { short_errors := true } envFull progErrDriver parsePlain
        "format hint" "SELCT 1" "" [] st0
      = (.raised (.nameError "sql"),
         { shellUserNs := [], printed := ["Syntax error at or near SELCT"],
           connOpened := 1, connClosed := 1 }))
    ∧ (execute { short_errors := false } envFull progErrDriver parsePlain
        "format hint" "SELCT 1" "" [] st0
      = (.raised (.nameError "sql"),
         { shellUserNs := [], printed := ["Syntax error at or near SELCT"],
           connOpened := 1, connClosed := 1 })) :=
  ⟨rfl, rfl⟩

/-- C2 (code-bug evidence): with autopandas disabled (its default), a
successful execution still returns the DataFrame produced by pd.read_sql —
never the generic keyed row result the claim promises for that setting; the
generic-result branch (vmagic.py lines 137-139) is unreachable. -/
theorem C2_result_is_dataframe_even_without_autopandas :
    execute { autopandas := false } envFull okDriver parsePlain
        "format hint" "SELECT 1" "" [] st0
      = (.returned (.dataframe 0),
         { shellUserNs := [], printed := [], connOpened := 1, connClosed := 1 }) :=
  rfl

/-- C3 (code-bug evidence): with column_local_vars and feedback enabled, a
successful execution returns the DataFrame, binds nothing into the shell
namespace and prints no feedback line — the column-binding block (vmagic.py
lines 131-147) is unreachable. -/
theorem C3_column_local_vars_has_no_effect :
    execute { column_local_vars := true, feedback := true } envFull okDriver
        parsePlain "format hint" "SELECT a, b FROM t" "" [] st0
      = (.returned (.dataframe 0),
         { shellUserNs := [], printed := [], connOpened := 1, connClosed := 1 }) :=
  rfl

/-- C4 (code-bug evidence): with the parser reporting the flag
result_var = "r" and column_local_vars disabled, a successful execution
still returns the DataFrame, binds nothing under "r" and prints nothing —
the result_var block (vmagic.py lines 150-154) is unreachable. -/
theorem C4_result_var_flag_has_no_effect :
    execute { column_local_vars := false } envFull okDriver parseWithVar
        "format hint" "SELECT 1" "" [] st0
      = (.returned (.dataframe 0),
         { shellUserNs := [], printed := [], connOpened := 1, connClosed := 1 }) :=
  rfl

/-- C5: when VERTICA_HOST is unset, execute fails before any connection
attempt: for every driver the outcome is the same (so neither connect nor the
query is consulted), no connection is counted as opened, exactly the assert
message naming the missing variable is printed, and the call exits by
raising instead of producing a result. -/
theorem C5_missing_host_fails_before_connecting (cfg : Config) (env : Env)
    (drv : Driver) (parseFn : String → Parsed) (tellFormat : String)
    (line cell : String) (local_ns : List (String × PyVal)) (st : ExecState)
    (hmiss : env "VERTICA_HOST" = none) :
    execute cfg env drv parseFn tellFormat line cell local_ns st
      = (.raised (.nameError "sql"),
         { st with printed := st.printed ++
             ["Ensure that `vertica.host` is set in your environment."] }) := by
  have hgc : get_connection_dict env
      = .error (.assertionError
          "Ensure that `vertica.host` is set in your environment.") := by
    simp [get_connection_dict, hmiss]
  simp [execute, hgc, handlerBlock_eq, PyExn.message]

/-- Witness for C5 at a concrete input: the empty environment. -/
theorem C5_missing_host_fails_before_connecting_witness :
    execute {} envEmpty okDriver parsePlain "format hint" "SELECT 1" "" [] st0
      = (.raised (.nameError "sql"),
         { st0 with printed := st0.printed ++
             ["Ensure that `vertica.host` is set in your environment."] }) :=
  C5_missing_host_fails_before_connecting {} envEmpty okDriver parsePlain
    "format hint" "SELECT 1" "" [] st0 rfl

/-- C6: connections are released on every exit path — over all environments,
drivers, parser outputs and initial states, the number of connections execute
opens equals the number it closes (both are 0 when the connection attempt
fails and 1 otherwise, whether the query succeeds or raises). -/
theorem C6_connection_released_on_every_path (cfg : Config) (env : Env)
    (drv : Driver) (parseFn : String → Parsed) (tellFormat : String)
    (line cell : String) (local_ns : List (String × PyVal)) (st : ExecState) :
    (execute cfg env drv parseFn tellFormat line cell local_ns st).2.connOpened
        + st.connClosed
      = (execute cfg env drv parseFn tellFormat line cell local_ns st).2.connClosed
        + st.connOpened := by
  rcases execute_shape cfg env drv parseFn tellFormat line cell local_ns st with
    ⟨df, h⟩ | ⟨e, k, h⟩ <;> simp [h] <;> omega

/-- C7: with both binding modes inactive (column_local_vars disabled and no
result_var flag from the parser), a successful call returns the shaped result
(the DataFrame) directly and leaves the shell namespace and the printed
output unmodified. -/
theorem C7_no_binding_returns_result_directly (cfg : Config) (env : Env)
    (drv : Driver) (parseFn : String → Parsed) (tellFormat : String)
    (line cell : String) (local_ns : List (String × PyVal)) (st : ExecState)
    (d : ConnDict) (df : Nat)
    (hclv : cfg.column_local_vars = false)
    (hrv : (parseFn (line ++ "\n" ++ cell)).result_var = none)
    (hgc : get_connection_dict env = .ok d)
    (hcn : drv.connect d = .ok ())
    (hrs : drv.read_sql (parseFn (line ++ "\n" ++ cell)).sql = .ok df) :
    execute cfg env drv parseFn tellFormat line cell local_ns st
      = (.returned (.dataframe df),
         { st with connOpened := st.connOpened + 1,
                   connClosed := st.connClosed + 1 }) := by
  simp [execute, hgc, hcn, hrs]

/-- Witness for C7 at a concrete input: default configuration, full
environment, succeeding driver, flagless parse. -/
theorem C7_no_binding_returns_result_directly_witness :
    execute {} envFull okDriver parsePlain "format hint" "SELECT 1" "" [] st0
      = (.returned (.dataframe 0),
         { st0 with connOpened := st0.connOpened + 1,
                    connClosed := st0.connClosed + 1 }) :=
  C7_no_binding_returns_result_directly {} envFull okDriver parsePlain
    "format hint" "SELECT 1" "" [] st0 connDictFull 0 rfl rfl rfl rfl rfl

/-- C8: with the four mandatory variables set and the three optional ones
unset, get_connection_dict takes host, user, password and database from
VERTICA_HOST, VERTICA_USER, VERTICA_PASSWORD and VERTICA_DB and defaults the
port to 5433, the session label to the fixed string "vsql magic session" and
the connection timeout to 5. -/
theorem C8_connection_dict_defaults (env : Env) (h u p d : String)
    (hh : env "VERTICA_HOST" = some h) (hu : env "VERTICA_USER" = some u)
    (hp : env "VERTICA_PASSWORD" = some p) (hd : env "VERTICA_DB" = some d)
    (hport : env "VERTICA_PORT" = none) (hlabel : env "VERTICA_LABEL" = none)
    (htime : env "VERTICA_TIMEOUT" = none) :
    get_connection_dict env = .ok
      { host := .s h, port := .i 5433, user := .s u, password := .s p,
        database := .s d, session_label := .s "vsql magic session",
        unicode_error := .s "strict", ssl := .b false,
        use_prepared_statements := .b false, connection_timeout := .i 5 } := by
  simp [get_connection_dict, hh, hu, hp, hd, hport, hlabel, htime]

/-- Witness for C8 at a concrete input: the environment envFull. -/
theorem C8_connection_dict_defaults_witness :
    get_connection_dict envFull = .ok connDictFull :=
  C8_connection_dict_defaults envFull "dbhost" "u1" "pw" "db1"
    rfl rfl rfl rfl rfl rfl rfl

/-- C9: for every single call, exactly one observable outcome occurs: either
a value is returned (and then nothing was printed), or an error was printed
(and then the call raised rather than returning any value, so no partial
result accompanies an error); values are never bound into the shell
namespace. -/
theorem C9_exactly_one_outcome_per_call (cfg : Config) (env : Env)
    (drv : Driver) (parseFn : String → Parsed) (tellFormat : String)
    (line cell : String) (local_ns : List (String × PyVal)) (st : ExecState) :
    ((∃ v, (execute cfg env drv parseFn tellFormat line cell local_ns st).1
          = .returned v)
        ∨ (execute cfg env drv parseFn tellFormat line cell local_ns st).2.printed
          ≠ st.printed)
    ∧ (∀ v, (execute cfg env drv parseFn tellFormat line cell local_ns st).1
          = .returned v →
        (execute cfg env drv parseFn tellFormat line cell local_ns st).2.printed
          = st.printed)
    ∧ ((execute cfg env drv parseFn tellFormat line cell local_ns st).2.printed
          ≠ st.printed →
        ∃ e, (execute cfg env drv parseFn tellFormat line cell local_ns st).1
          = .raised e)
    ∧ (execute cfg env drv parseFn tellFormat line cell local_ns st).2.shellUserNs
        = st.shellUserNs := by
  rcases execute_shape cfg env drv parseFn tellFormat line cell local_ns st with
    ⟨df, h⟩ | ⟨e, k, h⟩
  · refine ⟨Or.inl ⟨.dataframe df, by simp [h]⟩, fun v hv => by simp [h],
      fun hne => absurd ?_ hne, by simp [h]⟩
    simp [h]
  · have hne : st.printed ++ [PyExn.message e] ≠ st.printed := by
      intro hcontra
      have := congrArg List.length hcontra
      simp at this
    refine ⟨Or.inr (by simp [h, hne]), fun v hv => ?_, fun _ => ⟨.nameError "sql", by simp [h]⟩,
      by simp [h]⟩
    rw [h] at hv
    exact absurd hv (by simp)

/-- C10: the shared notebook namespace self.shell.user_ns is never mutated on
any reachable path of execute — the function works on a copy, and the only
writes to it sit in the legacy block after a try/except both of whose
branches exit the function. -/
theorem C10_shell_namespace_never_mutated (cfg : Config) (env : Env)
    (drv : Driver) (parseFn : String → Parsed) (tellFormat : String)
    (line cell : String) (local_ns : List (String × PyVal)) (st : ExecState) :
    (execute cfg env drv parseFn tellFormat line cell local_ns st).2.shellUserNs
      = st.shellUserNs := by
  rcases execute_shape cfg env drv parseFn tellFormat line cell local_ns st with
    ⟨df, h⟩ | ⟨e, k, h⟩ <;> simp [h]
